import Mathlib

/-!
Shallow embedding of the liquidation/spread engine of the
`liquidation-visualizer` repository
(`src/utils/liquidationCalculator.ts`, `src/utils/spreadCalculator.ts`,
`src/utils/pairInfoApi.ts`, `src/types/pairInfo.ts`).

Numeric conventions: position-level arithmetic (`calculateLiquidationPrice`,
`calculateMarginRatio`, `calculateLiquidationDistance`) is carried out on
finite JavaScript numbers and is embedded over `ℚ`.  The spread model mixes
JavaScript numbers with `BigNumber.js` values, and its edge cases (zero
depth, NaN normalisation) involve the non-finite values `Infinity` and
`NaN`; those computations are embedded over `JsNum`, rationals extended
with signed infinities and NaN, with the IEEE-754/BigNumber propagation
rules.  `Math.exp` is kept abstract as a parameter `mexp : JsNum → JsNum`
of every function in whose body the source calls it.
-/

namespace Avantis

/-- A JavaScript / BigNumber.js numeric value: a finite number (embedded as
an exact rational), a signed infinity, or NaN. -/
inductive JsNum where
  | num (q : ℚ)
  | inf (pos : Bool)
  | nan
deriving DecidableEq

namespace JsNum

/-- The `BigNumber.isNaN()` / JavaScript `isNaN`. -/
def isNaNb : JsNum → Bool
  | nan => true
  | _ => false

/-- The `BigNumber.isZero()` (false on NaN and infinities). -/
def isZero : JsNum → Bool
  | num q => decide (q = 0)
  | _ => false

/-- The `BigNumber.negated()` / unary minus. -/
def neg : JsNum → JsNum
  | num q => num (-q)
  | inf b => inf (!b)
  | nan => nan

/-- The `BigNumber.plus()` / `+` with IEEE propagation (`∞ + (−∞) = NaN`). -/
def add : JsNum → JsNum → JsNum
  | nan, _ => nan
  | _, nan => nan
  | num a, num b => num (a + b)
  | num _, inf b => inf b
  | inf b, num _ => inf b
  | inf a, inf b => if a = b then inf a else nan

/-- The `BigNumber.minus()` / binary minus. -/
def sub (x y : JsNum) : JsNum := add x (neg y)

/-- The `BigNumber.times()` / `*` with IEEE propagation (`0 × ∞ = NaN`). -/
def mul : JsNum → JsNum → JsNum
  | nan, _ => nan
  | _, nan => nan
  | num a, num b => num (a * b)
  | num a, inf b => if a = 0 then nan else if 0 < a then inf b else inf (!b)
  | inf b, num a => if a = 0 then nan else if 0 < a then inf b else inf (!b)
  | inf a, inf b => inf (a == b)

/-- The `BigNumber.div()` / `/` with the IEEE conventions `x/0 = ±∞` for
`x ≠ 0`, `0/0 = NaN`, `x/∞ = 0`, `∞/∞ = NaN`. -/
def div : JsNum → JsNum → JsNum
  | nan, _ => nan
  | _, nan => nan
  | num a, num b =>
      if b = 0 then (if a = 0 then nan else if 0 < a then inf true else inf false)
      else num (a / b)
  | num _, inf _ => num 0
  | inf a, num b => if 0 ≤ b then inf a else inf (!a)
  | inf _, inf _ => nan

/-- The `BigNumber.isGreaterThan()` (false whenever NaN is involved). -/
def gtb : JsNum → JsNum → Bool
  | nan, _ => false
  | _, nan => false
  | num a, num b => decide (b < a)
  | num _, inf b => !b
  | inf a, num _ => a
  | inf a, inf b => a && !b

/-- The `BigNumber.isLessThan()` (false whenever NaN is involved). -/
def ltb (x y : JsNum) : Bool := gtb y x

/-- The rational carried by a finite `JsNum` (junk value `0` otherwise;
used only where the value is proved to be finite). -/
def toQ : JsNum → ℚ
  | num q => q
  | _ => 0

end JsNum

/-- The fixed-point scale factor `1e18` used by the spread model. -/
def E18 : ℚ := 1000000000000000000

/-- The scale factor `1e36` used when descaling the skew spread. -/
def E36 : ℚ := 1000000000000000000000000000000000000

/-- The `PairParams` of `src/types/pairInfo.ts`. -/
structure PairParams where
  onePercentDepthAbove : ℚ
  onePercentDepthBelow : ℚ
deriving DecidableEq

/-- The `StoragePairParams` of `src/types/pairInfo.ts`. -/
structure StoragePairParams where
  pnlPriceImpactMultiplier : ℚ
  pnlSkewImpactMultiplier : ℚ
  pnlPosSpreadCap : ℚ
  pnlNegSpreadCap : ℚ
  negSpreadCap : ℚ
  posSpreadCap : ℚ
deriving DecidableEq

/-- The `OpenInterest` of `src/types/pairInfo.ts`. -/
structure OpenInterest where
  long : ℚ
  short : ℚ
deriving DecidableEq

/-- The `PairInfo` of `src/types/pairInfo.ts` (optional fields as `Option`). -/
structure PairInfo where
  priceImpactMultiplier : ℚ
  skewImpactMultiplier : ℚ
  spreadP : ℚ
  pairParams : Option PairParams
  storagePairParams : Option StoragePairParams
  pnlSpreadP : Option ℚ
  openInterest : Option OpenInterest
deriving DecidableEq

/-- Position side (`'long' | 'short'`). -/
inductive Side where
  | long
  | short
deriving DecidableEq

/-- The `Position` of `src/utils/liquidationCalculator.ts`. -/
structure Position where
  market : String
  side : Side
  collateral : ℚ
  leverage : ℚ
  entryPrice : ℚ
  currentPrice : ℚ
  pairInfo : Option PairInfo
deriving DecidableEq

/-- The `LiquidationResult` of `src/utils/liquidationCalculator.ts`.  The
`spread` field is optional in the source (absent on the spread-free path);
its value `spreadResult.dynamicSpread * 100` is a finite number (proved
below), so it is carried as an `Option ℚ`. -/
structure LiquidationResult where
  liquidationPrice : ℚ
  distanceFromLiquidation : ℚ
  distanceInPrice : ℚ
  marginRatio : ℚ
  isAtRisk : Bool
  isCritical : Bool
  spread : Option ℚ
deriving DecidableEq

/-- The `SpreadParams` of `src/utils/spreadCalculator.ts`. -/
structure SpreadParams where
  market : String
  leverage : ℚ
  positionSize : ℚ
  currentPrice : ℚ
  isLong : Bool
  pairInfo : PairInfo
  pairIndex : Option ℕ
deriving DecidableEq

/-- The `SpreadResult` of `src/utils/spreadCalculator.ts`. -/
structure SpreadResult where
  priceImpactSpread : JsNum
  skewImpactSpread : JsNum
  dynamicSpread : JsNum
  pnlDynamicSpread : JsNum
deriving DecidableEq

/-- The `getPairIndexFromMarket` of `src/utils/pairInfoApi.ts`: a static
lookup table with default index `0`. -/
def getPairIndexFromMarket (market : String) : ℕ :=
  if market = "BTC/USD" then 0
  else if market = "ETH/USD" then 1
  else if market = "SOL/USD" then 2
  else if market = "AVAX/USD" then 3
  else if market = "MATIC/USD" then 4
  else if market = "ARB/USD" then 5
  else if market = "OP/USD" then 6
  else 0

/-- The `calculateLiquidationPrice` of `src/utils/liquidationCalculator.ts`. -/
def calculateLiquidationPrice (position : Position) : ℚ :=
  let lossThreshold : ℚ := 85/100
  let priceMovePercent := lossThreshold / position.leverage
  match position.side with
  | Side.long => position.entryPrice * (1 - priceMovePercent)
  | Side.short => position.entryPrice * (1 + priceMovePercent)

/-- The `calculateMarginRatio` of `src/utils/liquidationCalculator.ts`. -/
def calculateMarginRatio (position : Position) : ℚ :=
  let positionSize := position.collateral * position.leverage
  let pnl :=
    match position.side with
    | Side.long => (position.currentPrice - position.entryPrice) * (positionSize / position.entryPrice)
    | Side.short => (position.entryPrice - position.currentPrice) * (positionSize / position.entryPrice)
  let currentEquity := position.collateral + pnl
  currentEquity / positionSize

/-- The `calculateLiquidationDistance` of `src/utils/liquidationCalculator.ts`. -/
def calculateLiquidationDistance (position : Position) : LiquidationResult :=
  let liquidationPrice := calculateLiquidationPrice position
  let currentPrice := position.currentPrice
  let distanceInPrice :=
    match position.side with
    | Side.long => currentPrice - liquidationPrice
    | Side.short => liquidationPrice - currentPrice
  let distanceFromLiquidation :=
    match position.side with
    | Side.long => (currentPrice - liquidationPrice) / currentPrice * 100
    | Side.short => (liquidationPrice - currentPrice) / currentPrice * 100
  let marginRatio := calculateMarginRatio position
  let isAtRisk := decide (distanceFromLiquidation < 10)
  let isCritical := decide (distanceFromLiquidation < 5)
  { liquidationPrice := liquidationPrice
    distanceFromLiquidation := distanceFromLiquidation
    distanceInPrice := distanceInPrice
    marginRatio := marginRatio
    isAtRisk := isAtRisk
    isCritical := isCritical
    spread := none }

/-- The `getPriceImpactSpread` of `src/utils/spreadCalculator.ts`.  `mexp`
stands for `Math.exp`. -/
def getPriceImpactSpread (mexp : JsNum → JsNum) (isLong : Bool)
    (onePercentDepthAbove onePercentDepthBelow positionSize priceImpactMultiplier : JsNum) :
    JsNum :=
  let onePercentDepthParam := if isLong then onePercentDepthAbove else onePercentDepthBelow
  if onePercentDepthParam.isZero then JsNum.num 0
  else
    let param := ((priceImpactMultiplier.mul positionSize).div onePercentDepthParam).div
      (JsNum.num E18)
    (mexp param).sub (JsNum.num 1)

/-- The `getSkewImpactSpread` of `src/utils/spreadCalculator.ts`. -/
def getSkewImpactSpread (mexp : JsNum → JsNum) (isLong : Bool)
    (positionSize skewImpactMultipler : JsNum) (pairInfo : PairInfo) : JsNum :=
  match pairInfo.openInterest with
  | none => JsNum.num 0
  | some oi =>
    let longOpenInterest := (JsNum.num oi.long).mul (JsNum.num E18)
    let shortOpenInterest := (JsNum.num oi.short).mul (JsNum.num E18)
    if longOpenInterest.isZero then JsNum.num 0
    else
      let totalOpenInterest := longOpenInterest.add shortOpenInterest
      let skewP :=
        if isLong then longOpenInterest.div totalOpenInterest
        else shortOpenInterest.div totalOpenInterest
      let skewPAfter :=
        if isLong then (longOpenInterest.add positionSize).div (totalOpenInterest.add positionSize)
        else (shortOpenInterest.add positionSize).div (totalOpenInterest.add positionSize)
      let rawSpread :=
        ((((mexp skewPAfter).sub (mexp skewP)).add
            (mexp ((JsNum.num 1).sub skewPAfter))).sub
          (mexp ((JsNum.num 1).sub skewP))).mul (JsNum.num E18)
      (skewImpactMultipler.mul rawSpread).div (JsNum.num E36)

/-- The `calculateDynamicSpread` of `src/utils/spreadCalculator.ts` (the
`console.log` debug calls are effect-free and not modelled). -/
def calculateDynamicSpread (mexp : JsNum → JsNum) (params : SpreadParams) : SpreadResult :=
  let isLong := params.isLong
  let leverage := params.leverage
  let positionSize := params.positionSize
  let pairInfo := params.pairInfo
  let priceImpactMultiplier := pairInfo.priceImpactMultiplier
  let skewImpactMultiplier := pairInfo.skewImpactMultiplier
  let pairSpreadP := pairInfo.spreadP
  let onePercentDepthAbove := (pairInfo.pairParams.map PairParams.onePercentDepthAbove).getD 0
  let onePercentDepthBelow := (pairInfo.pairParams.map PairParams.onePercentDepthBelow).getD 0
  let pnlSpreadP := pairInfo.pnlSpreadP.getD 0
  let pairIndex := params.pairIndex.getD 0
  let pnlPriceImpactMultiplier :=
    (pairInfo.storagePairParams.map StoragePairParams.pnlPriceImpactMultiplier).getD
      (if pairIndex = 1 then 14/10 else 12/10)
  let pnlSkewImpactMultiplier :=
    (pairInfo.storagePairParams.map StoragePairParams.pnlSkewImpactMultiplier).getD
      (if pairIndex = 1 then 14/10 else 12/10)
  let pnlNegSpreadCap := (pairInfo.storagePairParams.map StoragePairParams.pnlPosSpreadCap).getD 2
  let pnlPosSpreadCap := (pairInfo.storagePairParams.map StoragePairParams.pnlNegSpreadCap).getD 5
  let posSpreadCap := (pairInfo.storagePairParams.map StoragePairParams.negSpreadCap).getD 2
  let negSpreadCap := (pairInfo.storagePairParams.map StoragePairParams.posSpreadCap).getD 25
  let positionSizeBN := ((JsNum.num positionSize).mul (JsNum.num leverage)).mul (JsNum.num E18)
  let priceImpactMultiplierBN := (JsNum.num priceImpactMultiplier).mul (JsNum.num E18)
  let pnlPriceImpactMultiplierBN := (JsNum.num pnlPriceImpactMultiplier).mul (JsNum.num E18)
  let skewImpactMultiplerBN := (JsNum.num skewImpactMultiplier).mul (JsNum.num E18)
  let pnlSkewImpactMultiplerBN := (JsNum.num pnlSkewImpactMultiplier).mul (JsNum.num E18)
  let onePercentDepthAboveBN := (JsNum.num onePercentDepthAbove).mul (JsNum.num E18)
  let onePercentDepthBelowBN := (JsNum.num onePercentDepthBelow).mul (JsNum.num E18)
  let pairSpreadPBN := (JsNum.num pairSpreadP).mul (JsNum.num E18)
  let pnlSpreadPBN := (JsNum.num pnlSpreadP).mul (JsNum.num E18)
  let priceImpactSpread := getPriceImpactSpread mexp isLong onePercentDepthAboveBN
    onePercentDepthBelowBN positionSizeBN priceImpactMultiplierBN
  let pnlPriceImpactSpread := getPriceImpactSpread mexp isLong onePercentDepthAboveBN
    onePercentDepthBelowBN positionSizeBN pnlPriceImpactMultiplierBN
  let skewImpactSpread := getSkewImpactSpread mexp isLong positionSizeBN
    skewImpactMultiplerBN pairInfo
  let pnlSkewImpactSpread := getSkewImpactSpread mexp isLong positionSizeBN
    pnlSkewImpactMultiplerBN pairInfo
  let dynamicSpreadBN := (pairSpreadPBN.add
    (priceImpactSpread.mul (JsNum.num E18))).add (skewImpactSpread.mul (JsNum.num E18))
  let pnlDynamicSpreadBN := (pnlSpreadPBN.add
    (pnlPriceImpactSpread.mul (JsNum.num E18))).add (pnlSkewImpactSpread.mul (JsNum.num E18))
  let dynamicSpread0 := dynamicSpreadBN.div (JsNum.num E18)
  let pnlDynamicSpread0 := pnlDynamicSpreadBN.div (JsNum.num E18)
  let positiveLimit := ((JsNum.num E18).mul (JsNum.num posSpreadCap)).div (JsNum.num 100)
  let negativeLimit := (((JsNum.num E18).mul (JsNum.num negSpreadCap)).div (JsNum.num 100)).neg
  let pnlPositiveLimit := ((JsNum.num E18).mul (JsNum.num pnlPosSpreadCap)).div (JsNum.num 100)
  let pnlNegativeLimit :=
    (((JsNum.num E18).mul (JsNum.num pnlNegSpreadCap)).div (JsNum.num 100)).neg
  let dynamicSpread1 :=
    if dynamicSpreadBN.gtb positiveLimit then positiveLimit.div (JsNum.num E18)
    else dynamicSpread0
  let dynamicSpread2 :=
    if dynamicSpreadBN.ltb negativeLimit then negativeLimit.div (JsNum.num E18)
    else dynamicSpread1
  let pnlDynamicSpread1 :=
    if pnlDynamicSpreadBN.gtb pnlPositiveLimit then pnlPositiveLimit.div (JsNum.num E18)
    else pnlDynamicSpread0
  let pnlDynamicSpread2 :=
    if pnlDynamicSpreadBN.ltb pnlNegativeLimit then pnlNegativeLimit.div (JsNum.num E18)
    else pnlDynamicSpread1
  { priceImpactSpread := if priceImpactSpread.isNaNb then JsNum.num 0 else priceImpactSpread
    skewImpactSpread := if skewImpactSpread.isNaNb then JsNum.num 0 else skewImpactSpread
    dynamicSpread := if dynamicSpread2.isNaNb then JsNum.num 0 else dynamicSpread2
    pnlDynamicSpread := if pnlDynamicSpread2.isNaNb then JsNum.num 0 else pnlDynamicSpread2 }

/-- The `SpreadParams` record built by `calculateLiquidationWithSpread`
for a position whose `pairInfo` is attached (field-by-field from
`src/utils/liquidationCalculator.ts`, lines 137–146). -/
def spreadParamsOf (position : Position) (pi : PairInfo) : SpreadParams :=
  { market := position.market
    leverage := position.leverage
    positionSize := position.collateral * position.leverage
    currentPrice := position.currentPrice
    isLong := decide (position.side = Side.long)
    pairInfo := pi
    pairIndex := some (getPairIndexFromMarket position.market) }

/-- The `calculateLiquidationWithSpread` of
`src/utils/liquidationCalculator.ts`.  The source reads
`spreadResult.dynamicSpread` as a plain JavaScript number; the embedding
extracts the rational via `JsNum.toQ`, which is exact because the
returned `dynamicSpread` is always finite
(`calculateDynamicSpread_dynamicSpread_num` below). -/
def calculateLiquidationWithSpread (mexp : JsNum → JsNum) (position : Position) :
    LiquidationResult :=
  match position.pairInfo with
  | none => calculateLiquidationDistance position
  | some pi =>
    let spreadParams := spreadParamsOf position pi
    let spreadResult := calculateDynamicSpread mexp spreadParams
    let s := spreadResult.dynamicSpread.toQ
    let adjustedEntryPrice :=
      if position.side = Side.long then position.entryPrice * (1 + s)
      else position.entryPrice * (1 - s)
    let adjustedPosition := { position with entryPrice := adjustedEntryPrice }
    let result := calculateLiquidationDistance adjustedPosition
    { result with spread := some (s * 100) }

/-! ### Extraction of the intermediate values of `calculateDynamicSpread`

The following definitions name the intermediate values of
`calculateDynamicSpread` (its `let`-bound locals), so that theorems can
speak about them; each is connected to the source function by a `rfl`
lemma below. -/

/-- The `positionSizeBN` local of `calculateDynamicSpread`: the incoming
`positionSize` scaled by `leverage` and by `1e18`. -/
def positionSizeBNOf (params : SpreadParams) : JsNum :=
  ((JsNum.num params.positionSize).mul (JsNum.num params.leverage)).mul (JsNum.num E18)

/-- The `onePercentDepthAboveBN` local of `calculateDynamicSpread`. -/
def depthAboveBNOf (params : SpreadParams) : JsNum :=
  (JsNum.num ((params.pairInfo.pairParams.map PairParams.onePercentDepthAbove).getD 0)).mul
    (JsNum.num E18)

/-- The `onePercentDepthBelowBN` local of `calculateDynamicSpread`. -/
def depthBelowBNOf (params : SpreadParams) : JsNum :=
  (JsNum.num ((params.pairInfo.pairParams.map PairParams.onePercentDepthBelow).getD 0)).mul
    (JsNum.num E18)

/-- The `priceImpactSpread` local of `calculateDynamicSpread`. -/
def priceImpactSpreadOf (mexp : JsNum → JsNum) (params : SpreadParams) : JsNum :=
  getPriceImpactSpread mexp params.isLong (depthAboveBNOf params) (depthBelowBNOf params)
    (positionSizeBNOf params)
    ((JsNum.num params.pairInfo.priceImpactMultiplier).mul (JsNum.num E18))

/-- The `pnlPriceImpactMultiplier` local of `calculateDynamicSpread`
(with its pair-index-dependent default). -/
def pnlPriceImpactMultiplierOf (params : SpreadParams) : ℚ :=
  (params.pairInfo.storagePairParams.map StoragePairParams.pnlPriceImpactMultiplier).getD
    (if params.pairIndex.getD 0 = 1 then 14/10 else 12/10)

/-- The `pnlSkewImpactMultiplier` local of `calculateDynamicSpread`. -/
def pnlSkewImpactMultiplierOf (params : SpreadParams) : ℚ :=
  (params.pairInfo.storagePairParams.map StoragePairParams.pnlSkewImpactMultiplier).getD
    (if params.pairIndex.getD 0 = 1 then 14/10 else 12/10)

/-- The `pnlPriceImpactSpread` local of `calculateDynamicSpread`. -/
def pnlPriceImpactSpreadOf (mexp : JsNum → JsNum) (params : SpreadParams) : JsNum :=
  getPriceImpactSpread mexp params.isLong (depthAboveBNOf params) (depthBelowBNOf params)
    (positionSizeBNOf params)
    ((JsNum.num (pnlPriceImpactMultiplierOf params)).mul (JsNum.num E18))

/-- The `skewImpactSpread` local of `calculateDynamicSpread`. -/
def skewImpactSpreadOf (mexp : JsNum → JsNum) (params : SpreadParams) : JsNum :=
  getSkewImpactSpread mexp params.isLong (positionSizeBNOf params)
    ((JsNum.num params.pairInfo.skewImpactMultiplier).mul (JsNum.num E18)) params.pairInfo

/-- The `pnlSkewImpactSpread` local of `calculateDynamicSpread`. -/
def pnlSkewImpactSpreadOf (mexp : JsNum → JsNum) (params : SpreadParams) : JsNum :=
  getSkewImpactSpread mexp params.isLong (positionSizeBNOf params)
    ((JsNum.num (pnlSkewImpactMultiplierOf params)).mul (JsNum.num E18)) params.pairInfo

/-- The `dynamicSpreadBN` local of `calculateDynamicSpread` (pre-cap sum). -/
def dynamicSpreadBNOf (mexp : JsNum → JsNum) (params : SpreadParams) : JsNum :=
  (((JsNum.num params.pairInfo.spreadP).mul (JsNum.num E18)).add
    ((priceImpactSpreadOf mexp params).mul (JsNum.num E18))).add
    ((skewImpactSpreadOf mexp params).mul (JsNum.num E18))

/-- The `pnlDynamicSpreadBN` local of `calculateDynamicSpread`. -/
def pnlDynamicSpreadBNOf (mexp : JsNum → JsNum) (params : SpreadParams) : JsNum :=
  (((JsNum.num (params.pairInfo.pnlSpreadP.getD 0)).mul (JsNum.num E18)).add
    ((pnlPriceImpactSpreadOf mexp params).mul (JsNum.num E18))).add
    ((pnlSkewImpactSpreadOf mexp params).mul (JsNum.num E18))

/-- The `posSpreadCap` local of `calculateDynamicSpread`: note the source
reads the **`negSpreadCap`** storage field here (default `2`). -/
def posSpreadCapOf (params : SpreadParams) : ℚ :=
  (params.pairInfo.storagePairParams.map StoragePairParams.negSpreadCap).getD 2

/-- The `negSpreadCap` local of `calculateDynamicSpread`: note the source
reads the **`posSpreadCap`** storage field here (default `25`). -/
def negSpreadCapOf (params : SpreadParams) : ℚ :=
  (params.pairInfo.storagePairParams.map StoragePairParams.posSpreadCap).getD 25

/-- The `pnlPosSpreadCap` local of `calculateDynamicSpread`: reads the
**`pnlNegSpreadCap`** storage field (default `5`). -/
def pnlPosSpreadCapOf (params : SpreadParams) : ℚ :=
  (params.pairInfo.storagePairParams.map StoragePairParams.pnlNegSpreadCap).getD 5

/-- The `pnlNegSpreadCap` local of `calculateDynamicSpread`: reads the
**`pnlPosSpreadCap`** storage field (default `2`). -/
def pnlNegSpreadCapOf (params : SpreadParams) : ℚ :=
  (params.pairInfo.storagePairParams.map StoragePairParams.pnlPosSpreadCap).getD 2

/-- The clamp-and-normalise tail of `calculateDynamicSpread`: descale the
pre-cap sum, clamp it to the `[−negCap%, +posCap%]` limits, and normalise
NaN to zero. -/
def capSpread (bn : JsNum) (posCap negCap : ℚ) : JsNum :=
  let positiveLimit := ((JsNum.num E18).mul (JsNum.num posCap)).div (JsNum.num 100)
  let negativeLimit := (((JsNum.num E18).mul (JsNum.num negCap)).div (JsNum.num 100)).neg
  let s0 := bn.div (JsNum.num E18)
  let s1 := if bn.gtb positiveLimit then positiveLimit.div (JsNum.num E18) else s0
  let s2 := if bn.ltb negativeLimit then negativeLimit.div (JsNum.num E18) else s1
  if s2.isNaNb then JsNum.num 0 else s2

/-- The `adjustedPosition` local of `calculateLiquidationWithSpread`:
the position with its entry price adjusted by the dynamic spread. -/
def adjustedPositionOf (mexp : JsNum → JsNum) (position : Position) (pi : PairInfo) :
    Position :=
  let spreadResult := calculateDynamicSpread mexp (spreadParamsOf position pi)
  let s := spreadResult.dynamicSpread.toQ
  { position with entryPrice :=
      if position.side = Side.long then position.entryPrice * (1 + s)
      else position.entryPrice * (1 - s) }

/-- The price-impact spread as the specification words it (for comparison
with the source's `getPriceImpactSpread`): select the side's depth, guard
against zero depth, and return `exp(multiplier × positionSize / depth) − 1`
with no extra scaling of `positionSize`. -/
def specPriceImpactSpread (mexp : JsNum → JsNum) (isLong : Bool)
    (above below positionSize mult : ℚ) : JsNum :=
  let depth := if isLong then above else below
  if depth = 0 then JsNum.num 0
  else (mexp (JsNum.num (mult * positionSize / depth))).sub (JsNum.num 1)

/-- A stand-in for `Math.exp` that is never consulted on the inputs where
it is used (the guards return first). -/
def nanExp : JsNum → JsNum := fun _ => JsNum.nan

/-- A strictly monotone stand-in for `Math.exp` (`x ↦ x + 1`), used to
exhibit inputs on which expressions built from the exponential differ. -/
def affineExp : JsNum → JsNum := fun x => x.add (JsNum.num 1)

/-! ### Concrete inputs used by witnesses and counterexamples -/

/-- The concrete position of the 500×-leverage spec example:
`entryPrice = 105824.50`, `side = long`. -/
def c1Pos : Position :=
  { market := "BTC/USD", side := Side.long, collateral := 1000, leverage := 500,
    entryPrice := 2116490/20, currentPrice := 2116490/20, pairInfo := none }

/-- The spec-words price-impact formula at the `c2Params` inputs. -/
def c2Pi : PairInfo :=
  { priceImpactMultiplier := 1, skewImpactMultiplier := 0, spreadP := 0,
    pairParams := some { onePercentDepthAbove := 1, onePercentDepthBelow := 1 },
    storagePairParams := none, pnlSpreadP := none, openInterest := none }

/-- Spread parameters with `leverage = 2` and `positionSize = 2`
(collateral `1` × leverage `2`), unit depth and unit multiplier. -/
def c2Params : SpreadParams :=
  { market := "BTC/USD", leverage := 2, positionSize := 2, currentPrice := 100,
    isLong := true, pairInfo := c2Pi, pairIndex := some 0 }

/-- Storage pair params with distinct caps: `posSpreadCap = 2`,
`negSpreadCap = 25` (percent). -/
def c3Spp : StoragePairParams :=
  { pnlPriceImpactMultiplier := 1, pnlSkewImpactMultiplier := 1,
    pnlPosSpreadCap := 2, pnlNegSpreadCap := 5, negSpreadCap := 25, posSpreadCap := 2 }

/-- Pair info whose base spread `spreadP = 100` drives the pre-cap sum far
above every cap, with `c3Spp` attached. -/
def c3Pi : PairInfo :=
  { priceImpactMultiplier := 0, skewImpactMultiplier := 0, spreadP := 100,
    pairParams := none, storagePairParams := some c3Spp, pnlSpreadP := none,
    openInterest := none }

/-- Spread parameters carrying `c3Pi`. -/
def c3Params : SpreadParams :=
  { market := "BTC/USD", leverage := 10, positionSize := 10000, currentPrice := 50000,
    isLong := true, pairInfo := c3Pi, pairIndex := some 0 }

/-- The concrete position of the 10×-leverage spec example. -/
def c4Pos : Position :=
  { market := "BTC/USD", side := Side.long, collateral := 1000, leverage := 10,
    entryPrice := 50000, currentPrice := 51000, pairInfo := none }

/-- Pair info with no liquidity data at all: every spread component is
zero, so the dynamic spread is exactly `0`. -/
def c5Pi : PairInfo :=
  { priceImpactMultiplier := 0, skewImpactMultiplier := 0, spreadP := 0,
    pairParams := none, storagePairParams := none, pnlSpreadP := none,
    openInterest := none }

/-- A position with `c5Pi` attached (zero-spread spread-aware path). -/
def c5Pos : Position :=
  { market := "BTC/USD", side := Side.long, collateral := 1000, leverage := 10,
    entryPrice := 50000, currentPrice := 51000, pairInfo := some c5Pi }

/-- Pair info with zero one-percent depth (no `pairParams`) and open
interest whose long side is zero. -/
def c6Pi : PairInfo :=
  { priceImpactMultiplier := 3, skewImpactMultiplier := 7, spreadP := 0,
    pairParams := none, storagePairParams := none, pnlSpreadP := none,
    openInterest := some { long := 0, short := 3 } }

/-- Spread parameters carrying `c6Pi`, long side. -/
def c6Params : SpreadParams :=
  { market := "BTC/USD", leverage := 10, positionSize := 10000, currentPrice := 50000,
    isLong := true, pairInfo := c6Pi, pairIndex := some 0 }

/-- A long position sitting just above its liquidation price
(distance ≈ 0.54 % < 5 %). -/
def c7Pos : Position :=
  { market := "BTC/USD", side := Side.long, collateral := 1000, leverage := 10,
    entryPrice := 100, currentPrice := 92, pairInfo := none }

/-- A long position already past its liquidation price, at leverage 2. -/
def c8PosL1 : Position :=
  { market := "BTC/USD", side := Side.long, collateral := 1000, leverage := 2,
    entryPrice := 100, currentPrice := 50, pairInfo := none }

/-- The same past-liquidation position at leverage 10. -/
def c8PosL2 : Position :=
  { market := "BTC/USD", side := Side.long, collateral := 1000, leverage := 10,
    entryPrice := 100, currentPrice := 50, pairInfo := none }

/-- A long position at its entry price (distance stays positive at every
leverage). -/
def c8SafePos : Position :=
  { market := "BTC/USD", side := Side.long, collateral := 1000, leverage := 2,
    entryPrice := 100, currentPrice := 100, pairInfo := none }

/-- Pair info with no `storagePairParams`, so all four caps take their
defaults. -/
def c10Pi : PairInfo :=
  { priceImpactMultiplier := 2, skewImpactMultiplier := 3, spreadP := 50,
    pairParams := some { onePercentDepthAbove := 5, onePercentDepthBelow := 4 },
    storagePairParams := none, pnlSpreadP := some 1,
    openInterest := some { long := 6, short := 2 } }

/-- Spread parameters carrying `c10Pi`. -/
def c10Params : SpreadParams :=
  { market := "ETH/USD", leverage := 50, positionSize := 50000, currentPrice := 3000,
    isLong := false, pairInfo := c10Pi, pairIndex := some 1 }

/-- The `dynamicSpread` field of the result of `calculateDynamicSpread`
is the clamp-and-normalise tail applied to the pre-cap sum, with the
crosswise-read cap values (definitional). -/
lemma calculateDynamicSpread_dynamicSpread (mexp : JsNum → JsNum) (params : SpreadParams) :
    (calculateDynamicSpread mexp params).dynamicSpread
      = capSpread (dynamicSpreadBNOf mexp params) (posSpreadCapOf params)
          (negSpreadCapOf params) := rfl

/-- The `pnlDynamicSpread` field of the result of
`calculateDynamicSpread`, analogously (definitional). -/
lemma calculateDynamicSpread_pnlDynamicSpread (mexp : JsNum → JsNum) (params : SpreadParams) :
    (calculateDynamicSpread mexp params).pnlDynamicSpread
      = capSpread (pnlDynamicSpreadBNOf mexp params) (pnlPosSpreadCapOf params)
          (pnlNegSpreadCapOf params) := rfl

/-- The `priceImpactSpread` field of the result of
`calculateDynamicSpread` (definitional). -/
lemma calculateDynamicSpread_priceImpactSpread (mexp : JsNum → JsNum) (params : SpreadParams) :
    (calculateDynamicSpread mexp params).priceImpactSpread
      = (if (priceImpactSpreadOf mexp params).isNaNb then JsNum.num 0
          else priceImpactSpreadOf mexp params) := rfl

/-- The `skewImpactSpread` field of the result of
`calculateDynamicSpread` (definitional). -/
lemma calculateDynamicSpread_skewImpactSpread (mexp : JsNum → JsNum) (params : SpreadParams) :
    (calculateDynamicSpread mexp params).skewImpactSpread
      = (if (skewImpactSpreadOf mexp params).isNaNb then JsNum.num 0
          else skewImpactSpreadOf mexp params) := rfl

/-- The clamp-and-normalise tail always returns a finite number. -/
lemma capSpread_num (bn : JsNum) (posCap negCap : ℚ) :
    ∃ q : ℚ, capSpread bn posCap negCap = JsNum.num q := by
  have h100 : (100 : ℚ) ≠ 0 := by norm_num
  have hE' : (E18 : ℚ) ≠ 0 := by norm_num [E18]
  have hE0 : (0 : ℚ) ≤ E18 := by norm_num [E18]
  cases bn with
  | nan =>
    exact ⟨0, by simp [capSpread, JsNum.gtb, JsNum.ltb, JsNum.div, JsNum.mul, JsNum.neg,
      JsNum.isNaNb, h100]⟩
  | inf b =>
    cases b with
    | true =>
      refine ⟨E18 * posCap / 100 / E18, ?_⟩
      simp [capSpread, JsNum.gtb, JsNum.ltb, JsNum.div, JsNum.mul, JsNum.neg,
        JsNum.isNaNb, h100, hE']
    | false =>
      refine ⟨-(E18 * negCap / 100) / E18, ?_⟩
      simp [capSpread, JsNum.gtb, JsNum.ltb, JsNum.div, JsNum.mul, JsNum.neg,
        JsNum.isNaNb, h100, hE', hE0]
  | num q0 =>
    by_cases hlt : q0 < -(E18 * negCap / 100)
    · refine ⟨-(E18 * negCap / 100) / E18, ?_⟩
      simp [capSpread, JsNum.gtb, JsNum.ltb, JsNum.div, JsNum.mul, JsNum.neg,
        JsNum.isNaNb, h100, hE', hlt]
    · by_cases hgt : E18 * posCap / 100 < q0
      · refine ⟨E18 * posCap / 100 / E18, ?_⟩
        simp [capSpread, JsNum.gtb, JsNum.ltb, JsNum.div, JsNum.mul, JsNum.neg,
          JsNum.isNaNb, h100, hE', hgt, hlt]
      · refine ⟨q0 / E18, ?_⟩
        simp [capSpread, JsNum.gtb, JsNum.ltb, JsNum.div, JsNum.mul, JsNum.neg,
          JsNum.isNaNb, h100, hE', hgt, hlt]

/-- With nonnegative cap percentages, the clamp-and-normalise tail
returns a finite number inside `[−negCap/100, posCap/100]`, whatever the
pre-cap value (finite, infinite, or NaN). -/
lemma capSpread_bounds (bn : JsNum) (posCap negCap : ℚ) (hp : 0 ≤ posCap) (hn : 0 ≤ negCap) :
    ∃ q : ℚ, capSpread bn posCap negCap = JsNum.num q ∧
      -(negCap / 100) ≤ q ∧ q ≤ posCap / 100 := by
  have h100 : (100 : ℚ) ≠ 0 := by norm_num
  have hE : (0 : ℚ) < E18 := by norm_num [E18]
  have hE' : (E18 : ℚ) ≠ 0 := ne_of_gt hE
  have hE0 : (0 : ℚ) ≤ E18 := le_of_lt hE
  have hpl : E18 * posCap / 100 / E18 = posCap / 100 := by field_simp; ring
  have hnl : -(E18 * negCap / 100) / E18 = -(negCap / 100) := by field_simp; ring
  have hp' : (0 : ℚ) ≤ posCap / 100 := div_nonneg hp (by norm_num)
  have hn' : -(negCap / 100) ≤ 0 := neg_nonpos.mpr (div_nonneg hn (by norm_num))
  have hb : -(negCap / 100) ≤ posCap / 100 := le_trans hn' hp'
  cases bn with
  | nan =>
    refine ⟨0, ?_, hn', hp'⟩
    simp [capSpread, JsNum.gtb, JsNum.ltb, JsNum.div, JsNum.mul, JsNum.neg,
      JsNum.isNaNb, h100]
  | inf b =>
    cases b with
    | true =>
      refine ⟨posCap / 100, ?_, hb, le_refl _⟩
      rw [← hpl]
      simp [capSpread, JsNum.gtb, JsNum.ltb, JsNum.div, JsNum.mul, JsNum.neg,
        JsNum.isNaNb, h100, hE']
    | false =>
      refine ⟨-(negCap / 100), ?_, le_refl _, hb⟩
      rw [← hnl]
      simp [capSpread, JsNum.gtb, JsNum.ltb, JsNum.div, JsNum.mul, JsNum.neg,
        JsNum.isNaNb, h100, hE', hE0]
  | num q0 =>
    by_cases hlt : q0 < -(E18 * negCap / 100)
    · refine ⟨-(negCap / 100), ?_, le_refl _, hb⟩
      rw [← hnl]
      simp [capSpread, JsNum.gtb, JsNum.ltb, JsNum.div, JsNum.mul, JsNum.neg,
        JsNum.isNaNb, h100, hE', hlt]
    · by_cases hgt : E18 * posCap / 100 < q0
      · refine ⟨posCap / 100, ?_, hb, le_refl _⟩
        rw [← hpl]
        simp [capSpread, JsNum.gtb, JsNum.ltb, JsNum.div, JsNum.mul, JsNum.neg,
          JsNum.isNaNb, h100, hE', hgt, hlt]
      · refine ⟨q0 / E18, ?_, ?_, ?_⟩
        · simp [capSpread, JsNum.gtb, JsNum.ltb, JsNum.div, JsNum.mul, JsNum.neg,
            JsNum.isNaNb, h100, hE', hgt, hlt]
        · rw [← hnl]
          exact (div_le_div_iff_of_pos_right hE).mpr (not_lt.mp hlt)
        · rw [← hpl]
          exact (div_le_div_iff_of_pos_right hE).mpr (not_lt.mp hgt)

/-- NaN-normalisation (`isNaN(x) ? 0 : x`) never returns NaN. -/
lemma isNaNb_normalize (x : JsNum) :
    (if x.isNaNb then JsNum.num 0 else x).isNaNb = false := by
  cases x <;> simp [JsNum.isNaNb]

/-- The `isAtRisk` is the 10 % test on the computed distance (definitional). -/
lemma calculateLiquidationDistance_isAtRisk (p : Position) :
    (calculateLiquidationDistance p).isAtRisk
      = decide ((calculateLiquidationDistance p).distanceFromLiquidation < 10) := rfl

/-- The `isCritical` is the 5 % test on the computed distance (definitional). -/
lemma calculateLiquidationDistance_isCritical (p : Position) :
    (calculateLiquidationDistance p).isCritical
      = decide ((calculateLiquidationDistance p).distanceFromLiquidation < 5) := rfl

/-- On a position without pair info, the spread-aware path delegates to
the spread-free path. -/
lemma calculateLiquidationWithSpread_none (mexp : JsNum → JsNum) (p : Position)
    (h : p.pairInfo = none) :
    calculateLiquidationWithSpread mexp p = calculateLiquidationDistance p := by
  unfold calculateLiquidationWithSpread
  rw [h]

/-- On a position with pair info, the spread-aware path is the spread-free
path at the adjusted position, with the spread attached. -/
lemma calculateLiquidationWithSpread_some (mexp : JsNum → JsNum) (p : Position)
    (pi : PairInfo) (h : p.pairInfo = some pi) :
    calculateLiquidationWithSpread mexp p
      = { calculateLiquidationDistance (adjustedPositionOf mexp p pi) with
          spread := some
            ((calculateDynamicSpread mexp (spreadParamsOf p pi)).dynamicSpread.toQ * 100) } := by
  unfold calculateLiquidationWithSpread
  split
  · next hnone => rw [h] at hnone; cases hnone
  · next pi2 hsome =>
      rw [h] at hsome
      injection hsome with hh
      subst hh
      rfl

/-- Closed form of the long-side percentage distance at a given leverage. -/
lemma distance_formula_long (p : Position) (L : ℚ) (hs : p.side = Side.long) :
    (calculateLiquidationDistance { p with leverage := L }).distanceFromLiquidation
      = (p.currentPrice - p.entryPrice * (1 - 85/100 / L)) / p.currentPrice * 100 := by
  simp [calculateLiquidationDistance, calculateLiquidationPrice, hs]

/-- Closed form of the short-side percentage distance at a given leverage. -/
lemma distance_formula_short (p : Position) (L : ℚ) (hs : p.side = Side.short) :
    (calculateLiquidationDistance { p with leverage := L }).distanceFromLiquidation
      = (p.entryPrice * (1 + 85/100 / L) - p.currentPrice) / p.currentPrice * 100 := by
  simp [calculateLiquidationDistance, calculateLiquidationPrice, hs]

/-- The signed percentage distance strictly decreases in leverage. -/
lemma distance_strict_anti (p : Position) (L1 L2 : ℚ)
    (he : 0 < p.entryPrice) (hc : 0 < p.currentPrice) (hL1 : 0 < L1) (h12 : L1 < L2) :
    (calculateLiquidationDistance { p with leverage := L2 }).distanceFromLiquidation
      < (calculateLiquidationDistance { p with leverage := L1 }).distanceFromLiquidation := by
  have key : (85:ℚ)/100 * p.entryPrice / L2 < 85/100 * p.entryPrice / L1 :=
    div_lt_div_of_pos_left (mul_pos (by norm_num) he) hL1 h12
  have hside : p.side = Side.long ∨ p.side = Side.short := by
    cases p.side
    · exact Or.inl rfl
    · exact Or.inr rfl
  rcases hside with hs | hs
  · rw [distance_formula_long p L2 hs, distance_formula_long p L1 hs]
    have e2 : p.currentPrice - p.entryPrice * (1 - 85/100 / L2)
        = p.currentPrice - p.entryPrice + 85/100 * p.entryPrice / L2 := by ring
    have e1 : p.currentPrice - p.entryPrice * (1 - 85/100 / L1)
        = p.currentPrice - p.entryPrice + 85/100 * p.entryPrice / L1 := by ring
    rw [e1, e2]
    exact mul_lt_mul_of_pos_right
      ((div_lt_div_iff_of_pos_right hc).mpr (by linarith)) (by norm_num)
  · rw [distance_formula_short p L2 hs, distance_formula_short p L1 hs]
    have e2 : p.entryPrice * (1 + 85/100 / L2) - p.currentPrice
        = p.entryPrice - p.currentPrice + 85/100 * p.entryPrice / L2 := by ring
    have e1 : p.entryPrice * (1 + 85/100 / L1) - p.currentPrice
        = p.entryPrice - p.currentPrice + 85/100 * p.entryPrice / L1 := by ring
    rw [e1, e2]
    exact mul_lt_mul_of_pos_right
      ((div_lt_div_iff_of_pos_right hc).mpr (by linarith)) (by norm_num)

/-! ### Claim theorems -/

/-- C1 counterexample: at side = long, leverage = 500,
entryPrice = 105824.50, the function does NOT return approximately
105644.49 — the exact threshold-only value is 105644.59835, which is
0.10835 away from the claimed figure (tolerance ±0.05 for a value stated
to two decimals). -/
theorem C1_concrete_value_counterexample :
    ¬ |calculateLiquidationPrice c1Pos - 10564449/100| < 1/20 := by
  have h : calculateLiquidationPrice c1Pos - 10564449/100 = 2167/20000 := by
    simp [calculateLiquidationPrice, c1Pos]
    norm_num
  rw [h, abs_of_nonneg (by norm_num : (0:ℚ) ≤ 2167/20000)]
  norm_num

/-- C1 (amended): for every position with entryPrice > 0 and
leverage > 0, `calculateLiquidationPrice` returns
entryPrice × (1 − 0.85/leverage) for a long and
entryPrice × (1 + 0.85/leverage) for a short; for side = long,
leverage = 500, entryPrice = 105824.50 it returns exactly
105644.59835 (= 2112891967/20000), i.e. ≈ 105644.60, not ≈ 105644.49. -/
theorem C1_liquidation_price_formula (position : Position)
    (he : 0 < position.entryPrice) (hl : 0 < position.leverage) :
    (position.side = Side.long →
      calculateLiquidationPrice position
        = position.entryPrice * (1 - 85/100 / position.leverage)) ∧
    (position.side = Side.short →
      calculateLiquidationPrice position
        = position.entryPrice * (1 + 85/100 / position.leverage)) ∧
    calculateLiquidationPrice c1Pos = 2112891967/20000 := by
  refine ⟨fun hs => ?_, fun hs => ?_, ?_⟩
  · simp [calculateLiquidationPrice, hs]
  · simp [calculateLiquidationPrice, hs]
  · simp [calculateLiquidationPrice, c1Pos]
    norm_num

/-- C1 witness: the amended theorem applied at the concrete 500×
position. -/
theorem C1_liquidation_price_witness :
    (0:ℚ) < 2116490/20 ∧ calculateLiquidationPrice c1Pos = 2112891967/20000 :=
  ⟨by norm_num,
    (C1_liquidation_price_formula c1Pos (by norm_num [c1Pos]) (by norm_num [c1Pos])).2.2⟩

/-- C4: `calculateLiquidationDistance` returns the signed price distance,
the percentage distance relative to current price, and the 10 %/5 % risk
flags; at the concrete 10×-leverage example it returns
liquidationPrice = 45750, distanceInPrice = 5250,
distanceFromLiquidation ≈ 10.29 and isAtRisk = false. -/
theorem C4_liquidation_distance :
    (∀ p : Position,
      (p.side = Side.long → (calculateLiquidationDistance p).distanceInPrice
          = p.currentPrice - calculateLiquidationPrice p) ∧
      (p.side = Side.short → (calculateLiquidationDistance p).distanceInPrice
          = calculateLiquidationPrice p - p.currentPrice) ∧
      (calculateLiquidationDistance p).distanceFromLiquidation
          = (calculateLiquidationDistance p).distanceInPrice / p.currentPrice * 100 ∧
      (calculateLiquidationDistance p).isAtRisk
          = decide ((calculateLiquidationDistance p).distanceFromLiquidation < 10) ∧
      (calculateLiquidationDistance p).isCritical
          = decide ((calculateLiquidationDistance p).distanceFromLiquidation < 5)) ∧
    (calculateLiquidationDistance c4Pos).liquidationPrice = 45750 ∧
    (calculateLiquidationDistance c4Pos).distanceInPrice = 5250 ∧
    |(calculateLiquidationDistance c4Pos).distanceFromLiquidation - 1029/100| < 1/100 ∧
    (calculateLiquidationDistance c4Pos).isAtRisk = false := by
  have hd : (calculateLiquidationDistance c4Pos).distanceFromLiquidation = 175/17 := by
    simp [calculateLiquidationDistance, calculateLiquidationPrice, c4Pos]
    norm_num
  constructor
  · intro p
    refine ⟨fun hs => ?_, fun hs => ?_, ?_, rfl, rfl⟩
    · simp [calculateLiquidationDistance, hs]
    · simp [calculateLiquidationDistance, hs]
    · cases hs : p.side <;> simp [calculateLiquidationDistance, hs]
  · refine ⟨?_, ?_, ?_, ?_⟩
    · simp [calculateLiquidationDistance, calculateLiquidationPrice, c4Pos]
      norm_num
    · simp [calculateLiquidationDistance, calculateLiquidationPrice, c4Pos]
      norm_num
    · rw [hd]
      rw [show (175:ℚ)/17 - 1029/100 = 7/1700 by norm_num,
        abs_of_nonneg (by norm_num : (0:ℚ) ≤ 7/1700)]
      norm_num
    · rw [calculateLiquidationDistance_isAtRisk, hd]
      simp only [decide_eq_false_iff_not]
      norm_num

/-- C4 witness: the distance formula and risk flag evaluated at the
concrete example. -/
theorem C4_liquidation_distance_witness :
    (calculateLiquidationDistance c4Pos).distanceInPrice
      = c4Pos.currentPrice - calculateLiquidationPrice c4Pos ∧
    (calculateLiquidationDistance c4Pos).isAtRisk = false :=
  ⟨(C4_liquidation_distance.1 c4Pos).1 rfl, C4_liquidation_distance.2.2.2.2⟩

/-- C7: in every result of `calculateLiquidationDistance` and of
`calculateLiquidationWithSpread`, isCritical implies isAtRisk. -/
theorem C7_critical_subset_atRisk :
    (∀ p : Position, (calculateLiquidationDistance p).isCritical = true →
      (calculateLiquidationDistance p).isAtRisk = true) ∧
    (∀ (mexp : JsNum → JsNum) (p : Position),
      (calculateLiquidationWithSpread mexp p).isCritical = true →
      (calculateLiquidationWithSpread mexp p).isAtRisk = true) := by
  have base : ∀ p : Position, (calculateLiquidationDistance p).isCritical = true →
      (calculateLiquidationDistance p).isAtRisk = true := by
    intro p h
    rw [calculateLiquidationDistance_isCritical, decide_eq_true_eq] at h
    rw [calculateLiquidationDistance_isAtRisk, decide_eq_true_eq]
    linarith
  refine ⟨base, ?_⟩
  intro mexp p h
  cases hpi : p.pairInfo with
  | none =>
      rw [calculateLiquidationWithSpread_none mexp p hpi] at h ⊢
      exact base p h
  | some pi =>
      rw [calculateLiquidationWithSpread_some mexp p pi hpi] at h ⊢
      exact base _ h

/-- C7 witness: a position 0.54 % above liquidation is critical, hence
at risk. -/
theorem C7_critical_subset_atRisk_witness :
    (calculateLiquidationDistance c7Pos).isCritical = true ∧
    (calculateLiquidationDistance c7Pos).isAtRisk = true := by
  have h : (calculateLiquidationDistance c7Pos).isCritical = true := by
    rw [calculateLiquidationDistance_isCritical, decide_eq_true_eq]
    have : (calculateLiquidationDistance c7Pos).distanceFromLiquidation = 25/46 := by
      simp [calculateLiquidationDistance, calculateLiquidationPrice, c7Pos]
      norm_num
    rw [this]
    norm_num
  exact ⟨h, C7_critical_subset_atRisk.1 c7Pos h⟩

/-- C9: the margin ratio is (collateral + PnL)/(collateral × leverage)
with PnL = (currentPrice − entryPrice) × (collateral × leverage) /
entryPrice for a long and its negation for a short. -/
theorem C9_margin_formula (p : Position) (he : 0 < p.entryPrice) :
    (p.side = Side.long →
      calculateMarginRatio p
        = (p.collateral
            + (p.currentPrice - p.entryPrice) * (p.collateral * p.leverage) / p.entryPrice)
            / (p.collateral * p.leverage)) ∧
    (p.side = Side.short →
      calculateMarginRatio p
        = (p.collateral
            + -((p.currentPrice - p.entryPrice) * (p.collateral * p.leverage) / p.entryPrice))
            / (p.collateral * p.leverage)) := by
  constructor
  · intro hs
    simp [ calculateMarginRatio, hs]
    ring_nf
  · intro hs
    simp [ calculateMarginRatio, hs]
    ring_nf

/-- C9 witness: the margin formula at the 10×-leverage example. -/
theorem C9_margin_formula_witness :
    calculateMarginRatio c4Pos
      = (c4Pos.collateral
          + (c4Pos.currentPrice - c4Pos.entryPrice) * (c4Pos.collateral * c4Pos.leverage)
              / c4Pos.entryPrice)
          / (c4Pos.collateral * c4Pos.leverage) :=
  (C9_margin_formula c4Pos (by norm_num [c4Pos])).1 rfl

/-- C5: when the computed dynamic spread is exactly 0, the spread-aware
result agrees with the spread-free result on every field except the
attached spread; with no pair info the spread-aware path returns exactly
the spread-free result, whose spread field is omitted. -/
theorem C5_zero_spread_roundtrip :
    (∀ (mexp : JsNum → JsNum) (p : Position) (pi : PairInfo),
      p.pairInfo = some pi →
      (calculateDynamicSpread mexp (spreadParamsOf p pi)).dynamicSpread = JsNum.num 0 →
      ((calculateLiquidationWithSpread mexp p).liquidationPrice
          = (calculateLiquidationDistance p).liquidationPrice ∧
        (calculateLiquidationWithSpread mexp p).distanceFromLiquidation
          = (calculateLiquidationDistance p).distanceFromLiquidation ∧
        (calculateLiquidationWithSpread mexp p).distanceInPrice
          = (calculateLiquidationDistance p).distanceInPrice ∧
        LiquidationResult.marginRatio (calculateLiquidationWithSpread mexp p)
          = LiquidationResult.marginRatio (calculateLiquidationDistance p) ∧
        (calculateLiquidationWithSpread mexp p).isAtRisk
          = (calculateLiquidationDistance p).isAtRisk ∧
        (calculateLiquidationWithSpread mexp p).isCritical
          = (calculateLiquidationDistance p).isCritical)) ∧
    (∀ (mexp : JsNum → JsNum) (p : Position), p.pairInfo = none →
      calculateLiquidationWithSpread mexp p = calculateLiquidationDistance p ∧
      (calculateLiquidationDistance p).spread = none) := by
  constructor
  · intro mexp p pi hpi hzero
    have hadj : adjustedPositionOf mexp p pi = p := by
      simp only [adjustedPositionOf, hzero, JsNum.toQ]
      simp
    rw [calculateLiquidationWithSpread_some mexp p pi hpi, hadj]
    exact ⟨rfl, rfl, rfl, rfl, rfl, rfl⟩
  · intro mexp p hpi
    rw [calculateLiquidationWithSpread_none mexp p hpi]
    exact ⟨rfl, rfl⟩

/-- C5 witness: with an all-default pair info the dynamic spread is 0 and
the two paths produce the same liquidation price. -/
theorem C5_zero_spread_roundtrip_witness :
    (calculateDynamicSpread nanExp (spreadParamsOf c5Pos c5Pi)).dynamicSpread = JsNum.num 0 ∧
    (calculateLiquidationWithSpread nanExp c5Pos).liquidationPrice
      = (calculateLiquidationDistance c5Pos).liquidationPrice := by
  have h0 : (calculateDynamicSpread nanExp (spreadParamsOf c5Pos c5Pi)).dynamicSpread
      = JsNum.num 0 := by
    simp [calculateDynamicSpread, spreadParamsOf, c5Pos, c5Pi, getPairIndexFromMarket,
      getPriceImpactSpread, getSkewImpactSpread, JsNum.mul, JsNum.add, JsNum.div, JsNum.neg,
      JsNum.gtb, JsNum.ltb, JsNum.isZero, JsNum.isNaNb, E18, nanExp]
    norm_num
  exact ⟨h0, (C5_zero_spread_roundtrip.1 nanExp c5Pos c5Pi rfl h0).1⟩

/-- C8 counterexample: for a long position already past its liquidation
price (entry 100, current 50, leverages 2 < 10, both prices positive),
the distance magnitude at the higher leverage is 83, strictly larger
than 15 at the lower leverage — the claimed strict decrease fails. -/
theorem C8_counterexample :
    ¬ |(calculateLiquidationDistance c8PosL2).distanceFromLiquidation|
        < |(calculateLiquidationDistance c8PosL1).distanceFromLiquidation| := by
  have h1 : (calculateLiquidationDistance c8PosL1).distanceFromLiquidation = -15 := by
    simp [calculateLiquidationDistance, calculateLiquidationPrice, c8PosL1]
    norm_num
  have h2 : (calculateLiquidationDistance c8PosL2).distanceFromLiquidation = -83 := by
    simp [calculateLiquidationDistance, calculateLiquidationPrice, c8PosL2]
    norm_num
  rw [h1, h2, abs_of_nonpos (by norm_num : (-83:ℚ) ≤ 0),
    abs_of_nonpos (by norm_num : (-15:ℚ) ≤ 0)]
  norm_num

/-- C8 (amended): with entry and current price positive and leverages
1 ≤ L1 < L2, the magnitude of distanceFromLiquidation is strictly
smaller at L2 than at L1 **provided the position is not already past its
liquidation price at the higher leverage** (distance at L2 nonnegative);
the signed distance itself strictly decreases unconditionally. -/
theorem C8_leverage_monotonicity (p : Position) (L1 L2 : ℚ)
    (he : 0 < p.entryPrice) (hc : 0 < p.currentPrice) (h1 : 1 ≤ L1) (h12 : L1 < L2)
    (hsafe : 0 ≤ (calculateLiquidationDistance { p with leverage := L2 }).distanceFromLiquidation) :
    |(calculateLiquidationDistance { p with leverage := L2 }).distanceFromLiquidation|
      < |(calculateLiquidationDistance { p with leverage := L1 }).distanceFromLiquidation| := by
  have hL1 : (0:ℚ) < L1 := lt_of_lt_of_le one_pos h1
  have hmono := distance_strict_anti p L1 L2 he hc hL1 h12
  rw [abs_of_nonneg hsafe, abs_of_nonneg (le_trans hsafe (le_of_lt hmono))]
  exact hmono

/-- C8 witness: at entry = current = 100 the distance is 42.5 % at 2×
and 8.5 % at 10×. -/
theorem C8_leverage_monotonicity_witness :
    (0:ℚ) ≤ (calculateLiquidationDistance
        { c8SafePos with leverage := 10 }).distanceFromLiquidation ∧
    |(calculateLiquidationDistance { c8SafePos with leverage := 10 }).distanceFromLiquidation|
      < |(calculateLiquidationDistance { c8SafePos with leverage := 2 }).distanceFromLiquidation| := by
  have hsafe : (0:ℚ) ≤ (calculateLiquidationDistance
      { c8SafePos with leverage := 10 }).distanceFromLiquidation := by
    simp [calculateLiquidationDistance, calculateLiquidationPrice, c8SafePos]
    norm_num
  exact ⟨hsafe, C8_leverage_monotonicity c8SafePos 2 10 (by norm_num [c8SafePos])
    (by norm_num [c8SafePos]) (by norm_num) (by norm_num) hsafe⟩

/-- C2 counterexample: with unit depth and unit multiplier, leverage 2
and positionSize 2 (= collateral 1 × leverage 2), the price-impact spread
computed by the source feeds `multiplier × positionSize × leverage / depth
= 4` to the exponential, while the claimed formula feeds
`multiplier × positionSize / depth = 2`; for the strictly monotone
exponential stand-in `x ↦ x + 1` the two spreads differ (4 ≠ 2). -/
theorem C2_price_impact_counterexample :
    priceImpactSpreadOf affineExp c2Params
      ≠ specPriceImpactSpread affineExp c2Params.isLong 1 1 c2Params.positionSize
          c2Params.pairInfo.priceImpactMultiplier := by
  have hL : priceImpactSpreadOf affineExp c2Params = JsNum.num 4 := by
    simp [priceImpactSpreadOf, getPriceImpactSpread, depthAboveBNOf, depthBelowBNOf,
      positionSizeBNOf, c2Params, c2Pi, affineExp, JsNum.mul, JsNum.add, JsNum.div,
      JsNum.sub, JsNum.neg, JsNum.isZero, E18]
    norm_num
  have hR : specPriceImpactSpread affineExp c2Params.isLong 1 1 c2Params.positionSize
      c2Params.pairInfo.priceImpactMultiplier = JsNum.num 2 := by
    simp [specPriceImpactSpread, c2Params, c2Pi, affineExp, JsNum.add, JsNum.sub, JsNum.neg]
  rw [hL, hR]
  simp

/-- C2 (amended): `calculateLiquidationWithSpread` does invoke the spread
model with positionSize = collateral × leverage, and the three 1e18
fixed-point scalings cancel in the ratio — but `calculateDynamicSpread`
scales the given positionSize by leverage a second time, so with nonzero
side-selected depth the price-impact spread is
exp(multiplier × positionSize × leverage / depth) − 1
(= exp(multiplier × collateral × leverage² / depth) − 1), not
exp(multiplier × positionSize / depth) − 1. -/
theorem C2_price_impact_spread :
    (∀ (position : Position) (pi : PairInfo),
      (spreadParamsOf position pi).positionSize
        = position.collateral * position.leverage) ∧
    (∀ (mexp : JsNum → JsNum) (params : SpreadParams) (d : ℚ),
      d = (if params.isLong
            then (params.pairInfo.pairParams.map PairParams.onePercentDepthAbove).getD 0
            else (params.pairInfo.pairParams.map PairParams.onePercentDepthBelow).getD 0) →
      d ≠ 0 →
      priceImpactSpreadOf mexp params
        = (mexp (JsNum.num (params.pairInfo.priceImpactMultiplier
            * (params.positionSize * params.leverage) / d))).sub (JsNum.num 1)) := by
  constructor
  · intro position pi
    rfl
  · intro mexp params d hd hdne
    have hE' : (E18 : ℚ) ≠ 0 := by norm_num [E18]
    subst hd
    cases hL : params.isLong with
    | true =>
      simp [hL] at hdne
      have hAE : (params.pairInfo.pairParams.map PairParams.onePercentDepthAbove).getD 0 * E18
          ≠ 0 := mul_ne_zero hdne hE'
      simp [priceImpactSpreadOf, getPriceImpactSpread, depthAboveBNOf, depthBelowBNOf,
        positionSizeBNOf, hL, JsNum.mul, JsNum.isZero, JsNum.div, hAE, hE']
      apply congrArg (fun z => JsNum.sub z (JsNum.num 1))
      apply congrArg mexp
      apply congrArg JsNum.num
      field_simp
      ring
    | false =>
      simp [hL] at hdne
      have hAE : (params.pairInfo.pairParams.map PairParams.onePercentDepthBelow).getD 0 * E18
          ≠ 0 := mul_ne_zero hdne hE'
      simp [priceImpactSpreadOf, getPriceImpactSpread, depthAboveBNOf, depthBelowBNOf,
        positionSizeBNOf, hL, JsNum.mul, JsNum.isZero, JsNum.div, hAE, hE']
      apply congrArg (fun z => JsNum.sub z (JsNum.num 1))
      apply congrArg mexp
      apply congrArg JsNum.num
      field_simp
      ring

/-- C2 witness: the amended formula evaluated at the concrete parameters
with the monotone exponential stand-in. -/
theorem C2_price_impact_spread_witness :
    (spreadParamsOf c5Pos c5Pi).positionSize = c5Pos.collateral * c5Pos.leverage ∧
    ((1:ℚ) ≠ 0) ∧
    priceImpactSpreadOf affineExp c2Params
      = (affineExp (JsNum.num (c2Params.pairInfo.priceImpactMultiplier
          * (c2Params.positionSize * c2Params.leverage) / 1))).sub (JsNum.num 1) :=
  ⟨C2_price_impact_spread.1 c5Pos c5Pi, by norm_num,
    C2_price_impact_spread.2 affineExp c2Params 1 (by simp [c2Params, c2Pi]) (by norm_num)⟩

/-- C3 counterexample: with configured caps posSpreadCap = 2,
negSpreadCap = 25 and a huge pre-cap sum, the returned dynamicSpread is
0.25 — above the claimed upper bound posSpreadCap/100 = 0.02 (the code
clamps with the cap fields crossed). -/
theorem C3_caps_counterexample :
    (calculateDynamicSpread nanExp c3Params).dynamicSpread = JsNum.num (1/4) ∧
    ¬ ((1:ℚ)/4 ≤ c3Spp.posSpreadCap / 100) := by
  constructor
  · simp [calculateDynamicSpread, c3Params, c3Pi, c3Spp, getPriceImpactSpread,
      getSkewImpactSpread, JsNum.mul, JsNum.add, JsNum.div, JsNum.neg, JsNum.gtb,
      JsNum.ltb, JsNum.isZero, JsNum.isNaNb, E18, nanExp]
    norm_num
  · norm_num [c3Spp]

/-- C3 (amended): with configured storage caps, all four nonnegative, the
returned dynamicSpread lies within [−posSpreadCap/100, negSpreadCap/100]
and pnlDynamicSpread within [−pnlPosSpreadCap/100, pnlNegSpreadCap/100] —
the code reads each cap pair crosswise, so the positive clamp uses the
neg-named field and the negative clamp the pos-named field. -/
theorem C3_caps_crosswise (mexp : JsNum → JsNum) (params : SpreadParams)
    (spp : StoragePairParams) (h : params.pairInfo.storagePairParams = some spp)
    (h1 : 0 ≤ spp.posSpreadCap) (h2 : 0 ≤ spp.negSpreadCap)
    (h3 : 0 ≤ spp.pnlPosSpreadCap) (h4 : 0 ≤ spp.pnlNegSpreadCap) :
    (∃ q : ℚ, (calculateDynamicSpread mexp params).dynamicSpread = JsNum.num q ∧
      -(spp.posSpreadCap / 100) ≤ q ∧ q ≤ spp.negSpreadCap / 100) ∧
    (∃ q : ℚ, (calculateDynamicSpread mexp params).pnlDynamicSpread = JsNum.num q ∧
      -(spp.pnlPosSpreadCap / 100) ≤ q ∧ q ≤ spp.pnlNegSpreadCap / 100) := by
  have hpos : posSpreadCapOf params = spp.negSpreadCap := by simp [posSpreadCapOf, h]
  have hneg : negSpreadCapOf params = spp.posSpreadCap := by simp [negSpreadCapOf, h]
  have hppos : pnlPosSpreadCapOf params = spp.pnlNegSpreadCap := by
    simp [pnlPosSpreadCapOf, h]
  have hpneg : pnlNegSpreadCapOf params = spp.pnlPosSpreadCap := by
    simp [pnlNegSpreadCapOf, h]
  constructor
  · rw [calculateDynamicSpread_dynamicSpread, hpos, hneg]
    exact capSpread_bounds _ spp.negSpreadCap spp.posSpreadCap h2 h1
  · rw [calculateDynamicSpread_pnlDynamicSpread, hppos, hpneg]
    exact capSpread_bounds _ spp.pnlNegSpreadCap spp.pnlPosSpreadCap h4 h3

/-- C3 witness: the amended cap bounds at the concrete configured caps. -/
theorem C3_caps_crosswise_witness :
    c3Params.pairInfo.storagePairParams = some c3Spp ∧
    (∃ q : ℚ, (calculateDynamicSpread nanExp c3Params).dynamicSpread = JsNum.num q ∧
      -(c3Spp.posSpreadCap / 100) ≤ q ∧ q ≤ c3Spp.negSpreadCap / 100) :=
  ⟨rfl, (C3_caps_crosswise nanExp c3Params c3Spp rfl (by norm_num [c3Spp])
    (by norm_num [c3Spp]) (by norm_num [c3Spp]) (by norm_num [c3Spp])).1⟩

/-- C6: zero side-selected depth gives a zero price-impact component;
missing or long-zero open interest gives a zero skew component; and no
field of the returned SpreadResult is ever NaN (NaN is normalised to
zero), so the computation totalises every degenerate input. -/
theorem C6_graceful_degradation (mexp : JsNum → JsNum) (params : SpreadParams) :
    (params.isLong = true →
      (params.pairInfo.pairParams.map PairParams.onePercentDepthAbove).getD 0 = 0 →
      (calculateDynamicSpread mexp params).priceImpactSpread = JsNum.num 0) ∧
    (params.isLong = false →
      (params.pairInfo.pairParams.map PairParams.onePercentDepthBelow).getD 0 = 0 →
      (calculateDynamicSpread mexp params).priceImpactSpread = JsNum.num 0) ∧
    (params.pairInfo.openInterest = none →
      (calculateDynamicSpread mexp params).skewImpactSpread = JsNum.num 0) ∧
    (∀ oi : OpenInterest, params.pairInfo.openInterest = some oi → oi.long = 0 →
      (calculateDynamicSpread mexp params).skewImpactSpread = JsNum.num 0) ∧
    (calculateDynamicSpread mexp params).priceImpactSpread.isNaNb = false ∧
    (calculateDynamicSpread mexp params).skewImpactSpread.isNaNb = false ∧
    (calculateDynamicSpread mexp params).dynamicSpread.isNaNb = false ∧
    (calculateDynamicSpread mexp params).pnlDynamicSpread.isNaNb = false := by
  refine ⟨?_, ?_, ?_, ?_, ?_, ?_, ?_, ?_⟩
  · intro hL hdepth
    rw [calculateDynamicSpread_priceImpactSpread]
    have hz : priceImpactSpreadOf mexp params = JsNum.num 0 := by
      simp [priceImpactSpreadOf, getPriceImpactSpread, depthAboveBNOf, hdepth, hL,
        JsNum.mul, JsNum.isZero]
    rw [hz]
    simp [JsNum.isNaNb]
  · intro hL hdepth
    rw [calculateDynamicSpread_priceImpactSpread]
    have hz : priceImpactSpreadOf mexp params = JsNum.num 0 := by
      simp [priceImpactSpreadOf, getPriceImpactSpread, depthBelowBNOf, hdepth, hL,
        JsNum.mul, JsNum.isZero]
    rw [hz]
    simp [JsNum.isNaNb]
  · intro hoi
    rw [calculateDynamicSpread_skewImpactSpread]
    have hz : skewImpactSpreadOf mexp params = JsNum.num 0 := by
      simp [skewImpactSpreadOf, getSkewImpactSpread, hoi]
    rw [hz]
    simp [JsNum.isNaNb]
  · intro oi hoi hlong
    rw [calculateDynamicSpread_skewImpactSpread]
    have hz : skewImpactSpreadOf mexp params = JsNum.num 0 := by
      simp [skewImpactSpreadOf, getSkewImpactSpread, hoi, hlong, JsNum.mul, JsNum.isZero]
    rw [hz]
    simp [JsNum.isNaNb]
  · rw [calculateDynamicSpread_priceImpactSpread]
    exact isNaNb_normalize _
  · rw [calculateDynamicSpread_skewImpactSpread]
    exact isNaNb_normalize _
  · rw [calculateDynamicSpread_dynamicSpread]
    obtain ⟨q, hq⟩ := capSpread_num (dynamicSpreadBNOf mexp params)
      (posSpreadCapOf params) (negSpreadCapOf params)
    rw [hq]
    rfl
  · rw [calculateDynamicSpread_pnlDynamicSpread]
    obtain ⟨q, hq⟩ := capSpread_num (pnlDynamicSpreadBNOf mexp params)
      (pnlPosSpreadCapOf params) (pnlNegSpreadCapOf params)
    rw [hq]
    rfl

/-- C6 witness: zero depth and long-zero open interest at concrete
parameters. -/
theorem C6_graceful_degradation_witness :
    (calculateDynamicSpread nanExp c6Params).priceImpactSpread = JsNum.num 0 ∧
    (calculateDynamicSpread nanExp c6Params).skewImpactSpread = JsNum.num 0 ∧
    (calculateDynamicSpread nanExp c6Params).dynamicSpread.isNaNb = false :=
  ⟨(C6_graceful_degradation nanExp c6Params).1 rfl rfl,
    (C6_graceful_degradation nanExp c6Params).2.2.2.1 { long := 0, short := 3 } rfl rfl,
    (C6_graceful_degradation nanExp c6Params).2.2.2.2.2.2.1⟩

/-- C10: with no storagePairParams the caps take their defaults, and the
returned dynamicSpread always lies in [−0.25, 0.02] and pnlDynamicSpread
in [−0.02, 0.05]. -/
theorem C10_default_caps (mexp : JsNum → JsNum) (params : SpreadParams)
    (h : params.pairInfo.storagePairParams = none) :
    (∃ q : ℚ, (calculateDynamicSpread mexp params).dynamicSpread = JsNum.num q ∧
      -(1/4 : ℚ) ≤ q ∧ q ≤ 1/50) ∧
    (∃ q : ℚ, (calculateDynamicSpread mexp params).pnlDynamicSpread = JsNum.num q ∧
      -(1/50 : ℚ) ≤ q ∧ q ≤ 1/20) := by
  have hpos : posSpreadCapOf params = 2 := by simp [posSpreadCapOf, h]
  have hneg : negSpreadCapOf params = 25 := by simp [negSpreadCapOf, h]
  have hppos : pnlPosSpreadCapOf params = 5 := by simp [pnlPosSpreadCapOf, h]
  have hpneg : pnlNegSpreadCapOf params = 2 := by simp [pnlNegSpreadCapOf, h]
  constructor
  · rw [calculateDynamicSpread_dynamicSpread, hpos, hneg]
    obtain ⟨q, hq, hb1, hb2⟩ := capSpread_bounds (dynamicSpreadBNOf mexp params) 2 25
      (by norm_num) (by norm_num)
    exact ⟨q, hq, by linarith, by linarith⟩
  · rw [calculateDynamicSpread_pnlDynamicSpread, hppos, hpneg]
    obtain ⟨q, hq, hb1, hb2⟩ := capSpread_bounds (pnlDynamicSpreadBNOf mexp params) 5 2
      (by norm_num) (by norm_num)
    exact ⟨q, hq, by linarith, by linarith⟩

/-- C10 witness: the default cap bounds at concrete parameters with no
storagePairParams. -/
theorem C10_default_caps_witness :
    c10Params.pairInfo.storagePairParams = none ∧
    (∃ q : ℚ, (calculateDynamicSpread nanExp c10Params).dynamicSpread = JsNum.num q ∧
      -(1/4 : ℚ) ≤ q ∧ q ≤ 1/50) :=
  ⟨rfl, (C10_default_caps nanExp c10Params rfl).1⟩

end Avantis
